import Mathlib

/-!
Shallow embedding of the Attendance & Roster Synchronization subsystem of a
course-management web application (file `src/services/attendanceService.ts`,
UI-side aggregation in `src/components/Courses/CourseCard.tsx`, and the
`attendance_records` table schema from the SQL migrations).

Modelling conventions:
* The remote relational store is a list of rows (`Remote`); the SQL constraint
  UNIQUE(course_id, student_id, date) is modelled by inserts failing (leaving
  the table unchanged) whenever an inserted batch would violate it, which is
  what the hosted backend does for the whole insert statement.
* Browser `localStorage` is a list of key/value pairs (`LocalStore`); the JSON
  value stored under an `attendance_courseId_date` key is kept in parsed form
  as an insertion-ordered association list from studentId to the stored
  record, exactly the shape the service writes and reads back.
* `new Date().toISOString()` is an explicit `now : String` argument.
* Each remote call that may fail at runtime takes an explicit failure flag
  (the `OneFlags` / `BulkFlags` structures, or a `StatsRemote` outcome); a set
  flag means the corresponding backend call throws / returns an error, which
  the service catches exactly where the source code catches it.
* Fresh primary keys (`gen_random_uuid()`) are modelled by a `nextId` counter.
-/

/-- Attendance status enumeration, `'present' | 'absent' | 'late'` in the source. -/
inductive Status
  | present
  | absent
  | late
deriving DecidableEq, Repr

/-- Value stored per student inside a local-cache entry:
`\x7b status, markedBy, timestamp \x7d` in the source. -/
structure LocalRec where
  status : Status
  markedBy : String
  timestamp : String
deriving DecidableEq, Repr

/-- A row of the remote `attendance_records` table. -/
structure Row where
  id : Nat
  course_id : String
  student_id : String
  date : String
  status : Status
  marked_by : String
  created_at : String
  updated_at : String
deriving DecidableEq, Repr

/-- The record shape `getAttendanceRecords` returns (joined sub-objects of the
remote rows are omitted; the `Date` object built in the fallback branch is
kept as its source string). -/
structure ARecord where
  id : String
  courseId : String
  studentId : String
  date : String
  status : Status
  markedBy : String
deriving DecidableEq, Repr

/-- A roster entry as returned by `getCourseStudents`. -/
structure Student where
  id : String
  name : String
  email : String
  student_id : String
deriving DecidableEq, Repr

abbrev Remote := List Row

abbrev CacheEntry := List (String × LocalRec)

abbrev LocalStore := List (String × CacheEntry)

/-- Lookup in a JavaScript-object-like association list. -/
def getKey {α : Type} : List (String × α) → String → Option α
  | [], _ => none
  | (k', v) :: rest, k => if k' = k then some v else getKey rest k

/-- Assignment `obj[k] = v` on a JavaScript-object-like association list:
replaces in place when the key exists, appends otherwise. -/
def setKey {α : Type} : List (String × α) → String → α → List (String × α)
  | [], k, v => [(k, v)]
  | (k', v') :: rest, k, v =>
      if k' = k then (k, v) :: rest else (k', v') :: setKey rest k v

/-- The localStorage key `attendance_courseId_date` used by the service. -/
def storageKey (courseId date : String) : String :=
  "attendance_" ++ courseId ++ "_" ++ date

/-- Row matches the composite key used by the `markSingleAttendance` lookup. -/
def matchTriple (c s d : String) (r : Row) : Bool :=
  r.course_id = c && r.student_id = s && r.date = d

/-- Two rows collide on the UNIQUE(course_id, student_id, date) constraint. -/
def rowConflict (r1 r2 : Row) : Bool :=
  r1.course_id = r2.course_id && r1.student_id = r2.student_id && r1.date = r2.date

/-- Whether a batch of new rows can be inserted next to `rem` without
violating the uniqueness constraint (pairwise inside the batch included). -/
def conflictFree : Remote → List Row → Bool
  | _, [] => true
  | rem, r :: rest => (!rem.any (fun x => rowConflict x r)) && conflictFree (r :: rem) rest

/-- Insert a batch of rows; the whole statement fails (`none`, table
unchanged) when the uniqueness constraint would be violated. -/
def insertBatch (rem : Remote) (new : List Row) : Option Remote :=
  if conflictFree rem new then some (rem ++ new) else none

/-- The `.select('id').eq(...).eq(...).eq(...).single()` lookup of
`markSingleAttendance`: yields the row id when exactly one row matches the
triple, and null (`none`) otherwise — `.single()` errors both on zero and on
several matching rows, and the source destructures only `data`. -/
def selectSingleId (rem : Remote) (c s d : String) : Option Nat :=
  match rem.filter (matchTriple c s d) with
  | [r] => some r.id
  | _ => none

/-- Whole system state: remote table, localStorage, and the fresh-id counter. -/
structure St where
  remote : Remote
  store : LocalStore
  nextId : Nat
deriving DecidableEq, Repr

/-- Runtime failure points of the remote block of `markSingleAttendance`:
`localFail` - the localStorage step itself throws (quota, malformed JSON);
`selThrow` - the existence check rejects, skipping the whole remote block;
`writeErr` - the update/insert returns an error. -/
structure OneFlags where
  localFail : Bool
  selThrow : Bool
  writeErr : Bool
deriving DecidableEq, Repr

/-- Runtime failure points of `markAttendance` (bulk):
`localFail` - the localStorage step throws; `delThrow` - the delete rejects,
skipping the insert; `insErr` - the insert returns an error. -/
structure BulkFlags where
  localFail : Bool
  delThrow : Bool
  insErr : Bool
deriving DecidableEq, Repr

/-- Local-cache step of `markSingleAttendance` (source lines 158-162): read
the entry for the key (empty object when absent), set the one student's
record, write the entry back. -/
def localMarkOne (store : LocalStore) (c s d : String) (st : Status) (m now : String) :
    LocalStore :=
  let k := storageKey c d
  let entry := (getKey store k).getD []
  setKey store k (setKey entry s { status := st, markedBy := m, timestamp := now })

/-- Remote step of `markSingleAttendance` (source lines 164-204), acting on
the remote table and the fresh-id counter: look the triple up; update in
place when found, insert a new row otherwise; every failure is caught and
leaves the table as it was at the failure point. -/
def upsertOne (rem : Remote) (nid : Nat) (c s d : String) (st : Status) (m now : String)
    (f : OneFlags) : Remote × Nat :=
  if f.selThrow then (rem, nid)
  else
    match selectSingleId rem c s d with
    | some i =>
        if f.writeErr then (rem, nid)
        else
          (rem.map (fun r =>
            if r.id = i then { r with status := st, marked_by := m, updated_at := now } else r),
           nid)
    | none =>
        if f.writeErr then (rem, nid)
        else
          let newRow : Row :=
            { id := nid, course_id := c, student_id := s, date := d, status := st,
              marked_by := m, created_at := now, updated_at := now }
          match insertBatch rem [newRow] with
          | some rem' => (rem', nid + 1)
          | none => (rem, nid)

/-- `AttendanceService.markSingleAttendance`: local cache write first, then
the remote upsert attempt; remote failures are caught and the call still
returns true; only a failure of the local step itself reaches the outer
catch and returns false. -/
def markSingleAttendance (σ : St) (c s d : String) (st : Status) (m now : String)
    (f : OneFlags) : Bool × St :=
  if f.localFail then (false, σ)
  else
    let up := upsertOne σ.remote σ.nextId c s d st m now f
    (true, { remote := up.1, store := localMarkOne σ.store c s d st m now, nextId := up.2 })

/-- Local-cache step of `markAttendance` (source lines 100-110): build a fresh
object from the payload alone (later payload entries for the same student
overwrite earlier ones) and store it under the key, replacing any prior entry. -/
def localMarkBulk (store : LocalStore) (c d : String) (data : List (String × Status))
    (m now : String) : LocalStore :=
  let entry := data.foldl
    (fun e p => setKey e p.1 { status := p.2, markedBy := m, timestamp := now }) []
  setKey store (storageKey c d) entry

/-- Rows built from a bulk payload (source lines 121-129); ids stand for the
uuids the backend generates. -/
def buildRows (nid : Nat) (c d : String) (data : List (String × Status)) (m now : String) :
    List Row :=
  data.enum.map (fun p =>
    { id := nid + p.1, course_id := c, student_id := p.2.1, date := d, status := p.2.2,
      marked_by := m, created_at := now, updated_at := now })

/-- Remote step of `markAttendance` (source lines 112-138): delete every row
of the (course, date) partition, then insert the payload rows; a rejected
delete skips the insert, a failed insert leaves the partition deleted, and
both are caught. -/
def replaceDay (rem : Remote) (nid : Nat) (c d : String) (data : List (String × Status))
    (m now : String) (f : BulkFlags) : Remote × Nat :=
  if f.delThrow then (rem, nid)
  else
    let afterDel := rem.filter (fun r => !(r.course_id = c && r.date = d))
    if f.insErr then (afterDel, nid)
    else
      match insertBatch afterDel (buildRows nid c d data m now) with
      | some rem' => (rem', nid + data.length)
      | none => (afterDel, nid)

/-- `AttendanceService.markAttendance` (bulk): local cache overwrite first,
then the remote delete-then-insert attempt; remote failures are caught and
the call still returns true. -/
def markAttendance (σ : St) (c d : String) (data : List (String × Status)) (m now : String)
    (f : BulkFlags) : Bool × St :=
  if f.localFail then (false, σ)
  else
    let rep := replaceDay σ.remote σ.nextId c d data m now f
    (true, { remote := rep.1, store := localMarkBulk σ.store c d data m now, nextId := rep.2 })

/-- Decoding of one cached (studentId, record) pair into the record shape the
localStorage fallback of `getAttendanceRecords` builds (source lines 38-48). -/
def decodeCached (c d : String) (p : String × LocalRec) : ARecord :=
  { id := c ++ "_" ++ p.1 ++ "_" ++ d, courseId := c, studentId := p.1, date := d,
    status := p.2.status, markedBy := p.2.markedBy }

/-- View of a remote row in the record shape of `getAttendanceRecords`. -/
def rowToARecord (r : Row) : ARecord :=
  { id := toString r.id, courseId := r.course_id, studentId := r.student_id, date := r.date,
    status := r.status, markedBy := r.marked_by }

/-- Stable insertion step for the `order('date', ascending: false)` sort. -/
def insertByDateDesc (r : Row) : List Row → List Row
  | [] => [r]
  | x :: xs => if x.date < r.date then r :: x :: xs else x :: insertByDateDesc r xs

/-- Rows sorted by date, descending (the remote read's ordering). -/
def sortByDateDesc (l : List Row) : List Row :=
  l.foldr insertByDateDesc []

/-- `AttendanceService.getAttendanceRecords`: remote read filtered by course
(and by date when given) sorted date-descending; when the remote read throws
and a date was given, decode the localStorage entry for that key instead
(empty object when absent); without a date the fallback returns the empty
list. -/
def getAttendanceRecords (σ : St) (c : String) (dOpt : Option String) (remoteFail : Bool) :
    List ARecord :=
  if remoteFail then
    match dOpt with
    | some d => ((getKey σ.store (storageKey c d)).getD []).map (decodeCached c d)
    | none => []
  else
    (sortByDateDesc (σ.remote.filter (fun r =>
      r.course_id = c && (match dOpt with | some d => r.date = d | none => true)))).map
      rowToARecord

/-- The fixed fallback roster hard-coded in `getCourseStudents`. -/
def mockStudents : List Student :=
  [{ id := "550e8400-e29b-41d4-a716-446655440005", name := "John Smith",
     email := "john.smith@student.edu", student_id := "STU001" },
   { id := "550e8400-e29b-41d4-a716-446655440006", name := "Maria Garcia",
     email := "maria.garcia@student.edu", student_id := "STU002" },
   { id := "550e8400-e29b-41d4-a716-446655440007", name := "David Wilson",
     email := "david.wilson@student.edu", student_id := "STU003" },
   { id := "550e8400-e29b-41d4-a716-446655440008", name := "Lisa Zhang",
     email := "lisa.zhang@student.edu", student_id := "STU004" },
   { id := "550e8400-e29b-41d4-a716-446655440009", name := "Robert Brown",
     email := "robert.brown@student.edu", student_id := "STU005" }]

/-- `AttendanceService.getCourseStudents`: join the enrollment table (modelled
as (courseId, student profile) pairs) for the course; on a query error, a
thrown call (both collapsed into `dbFail`), or an empty join result, return
the fixed mock roster. The function is total: no error escapes it. -/
def getCourseStudents (enrollments : List (String × Student)) (c : String) (dbFail : Bool) :
    List Student :=
  if dbFail then mockStudents
  else
    let students := (enrollments.filter (fun p => p.1 = c)).map (fun p => p.2)
    if students.length = 0 then mockStudents else students

/-- The stats object shape returned by `AttendanceService.getAttendanceStats`.
Percentages are exact rationals (the source computes plain IEEE arithmetic on
the same formulas and applies no rounding). -/
structure ServiceStats where
  totalStudents : Nat
  totalRecords : Nat
  present : Nat
  absent : Nat
  late : Nat
  presentPercentage : ℚ
  attendanceRate : ℚ
deriving DecidableEq, Repr

/-- Pure aggregation core of `getAttendanceStats` (source lines 258-270):
counts by status over the collected records plus the guarded percentage
formulas. -/
def statsCore (totalStudents : Nat) (records : List Status) : ServiceStats :=
  let present := (records.filter (fun r => r = Status.present)).length
  let absent := (records.filter (fun r => r = Status.absent)).length
  let late := (records.filter (fun r => r = Status.late)).length
  let totalRecords := records.length
  { totalStudents := totalStudents, totalRecords := totalRecords, present := present,
    absent := absent, late := late,
    presentPercentage :=
      if totalRecords > 0 then ((present : ℚ) / (totalRecords : ℚ)) * 100 else 0,
    attendanceRate :=
      if totalRecords > 0 then (((present : ℚ) + (late : ℚ)) / (totalRecords : ℚ)) * 100
      else 0 }

/-- Outcome of the records query inside `getAttendanceStats`: a successful
response, an in-band error (which switches to the localStorage scan), or a
rejected call (which reaches the outer catch and yields the default stats). -/
inductive StatsRemote
  | ok
  | errInBand
  | thrown
deriving DecidableEq, Repr

/-- The localStorage scan of `getAttendanceStats` (source lines 243-255):
statuses of every record stored under any `attendance_courseId_` key. -/
def localScanStatuses (store : LocalStore) (c : String) : List Status :=
  (store.filter (fun p => p.1.startsWith ("attendance_" ++ c ++ "_"))).flatMap
    (fun p => p.2.map (fun q => q.2.status))

/-- Date-range filter of the stats query (`gte`/`lte` on the date column). -/
def dateInRange (sd ed : Option String) (d : String) : Bool :=
  (match sd with | some s => decide (s ≤ d) | none => true) &&
  (match ed with | some e => decide (d ≤ e) | none => true)

/-- `AttendanceService.getAttendanceStats`: roster length from
`getCourseStudents`, records from the remote query, from the localStorage
scan on an in-band error, or all-zero default stats when the query call
throws (the outer catch re-fetches the roster with the same outcome). -/
def getAttendanceStats (σ : St) (c : String) (sd ed : Option String)
    (enrollments : List (String × Student)) (rosterFail : Bool) (q : StatsRemote) :
    ServiceStats :=
  let totalStudents := (getCourseStudents enrollments c rosterFail).length
  match q with
  | .thrown =>
      { totalStudents := totalStudents, totalRecords := 0, present := 0, absent := 0,
        late := 0, presentPercentage := 0, attendanceRate := 0 }
  | .errInBand => statsCore totalStudents (localScanStatuses σ.store c)
  | .ok =>
      statsCore totalStudents
        ((σ.remote.filter (fun r => r.course_id = c && dateInRange sd ed r.date)).map
          Row.status)

/-- The stats object shape computed by the UI-side `getAttendanceStats` in
`CourseCard.tsx` (lines 276-293). `unmarked` is the plain JavaScript
subtraction, an integer that may be negative; `rateTenths` models the
`toFixed(1)` string as the rate rounded to tenths (0 when nothing is marked). -/
structure CardStats where
  totalStudents : Nat
  markedStudents : Nat
  present : Nat
  late : Nat
  absent : Nat
  unmarked : Int
  rateTenths : ℚ
deriving DecidableEq, Repr

/-- The UI-side aggregation of `CourseCard.tsx` (`getAttendanceStats`,
lines 276-293): counts over the fetched records, `unmarked = totalStudents -
markedStudents` with no clamping, attendance rate rounded to one decimal. -/
def cardAttendanceStats (students : List Student) (attendanceRecords : List ARecord) :
    CardStats :=
  let totalStudents := students.length
  let markedStudents := attendanceRecords.length
  let present := (attendanceRecords.filter (fun r => r.status = Status.present)).length
  let late := (attendanceRecords.filter (fun r => r.status = Status.late)).length
  let absent := (attendanceRecords.filter (fun r => r.status = Status.absent)).length
  { totalStudents := totalStudents, markedStudents := markedStudents, present := present,
    late := late, absent := absent,
    unmarked := (totalStudents : Int) - (markedStudents : Int),
    rateTenths :=
      if markedStudents > 0 then
        (round ((((present : ℚ) + (late : ℚ)) / (markedStudents : ℚ) * 100) * 10) : ℚ) / 10
      else 0 }

/-- Result accumulator of `bulkImportAttendance`. -/
structure ImportResults where
  success : Nat
  failed : Nat
  errors : List String
deriving DecidableEq, Repr

/-- One entry of a bulk import payload. -/
structure ImportEntry where
  studentId : String
  date : String
  status : Status
deriving DecidableEq, Repr

/-- `AttendanceService.bulkImportAttendance`: marks each entry through
`markSingleAttendance` (each entry carries its own failure flags) and counts
it as a success; the catch branch of the source that would count a failure is
dead code, because `markSingleAttendance` traps every error internally and
resolves with a boolean (which the import loop never inspects). -/
def bulkImportAttendance (σ : St) (c : String) (entries : List (ImportEntry × OneFlags))
    (m now : String) : ImportResults × St :=
  entries.foldl
    (fun acc e =>
      let r := markSingleAttendance acc.2 c e.1.studentId e.1.date e.1.status m now e.2
      ({ acc.1 with success := acc.1.success + 1 }, r.2))
    ({ success := 0, failed := 0, errors := [] }, σ)

/-- One write operation of the attendance store, with its runtime failure
flags, for reasoning about arbitrary call sequences. -/
inductive Op
  | one (c s d : String) (st : Status) (m now : String) (f : OneFlags)
  | bulk (c d : String) (data : List (String × Status)) (m now : String) (f : BulkFlags)

/-- Apply one write operation to the state. -/
def applyOp (σ : St) : Op → St
  | .one c s d st m now f => (markSingleAttendance σ c s d st m now f).2
  | .bulk c d data m now f => (markAttendance σ c d data m now f).2

/-- Run a sequence of write operations. -/
def runOps (ops : List Op) (σ : St) : St :=
  ops.foldl applyOp σ

/-- The initial state: empty remote table, empty localStorage. -/
def initSt : St :=
  { remote := [], store := [], nextId := 0 }

/-- Uniqueness of the remote table: no two rows share (course, student, date). -/
def uniqRemote (rem : Remote) : Prop :=
  rem.Pairwise (fun a b => rowConflict a b = false)

/-- Ids of the remote table are all below the fresh-id counter. -/
def idsFresh (rem : Remote) (nid : Nat) : Prop :=
  ∀ r ∈ rem, r.id < nid

/-! Helper lemmas about the JavaScript-object association-list operations. -/

lemma getKey_setKey_same {α : Type} (m : List (String × α)) (k : String) (v : α) :
    getKey (setKey m k v) k = some v := by
  induction m with
  | nil => simp [setKey, getKey]
  | cons p rest ih =>
      by_cases h : p.1 = k
      · simp [setKey, getKey, h]
      · simp only [setKey, h, if_false, getKey]
        exact ih

lemma getKey_setKey_ne {α : Type} (m : List (String × α)) (k k' : String) (v : α)
    (h : k' ≠ k) : getKey (setKey m k v) k' = getKey m k' := by
  have hk : k ≠ k' := fun hh => h hh.symm
  induction m with
  | nil => simp [setKey, getKey, hk]
  | cons p rest ih =>
      by_cases hp : p.1 = k
      · simp only [setKey, hp, if_true, getKey]
        rw [if_neg hk, if_neg (hp ▸ hk)]
      · simp only [setKey, hp, if_false, getKey]
        by_cases hp' : p.1 = k'
        · rw [if_pos hp', if_pos hp']
        · rw [if_neg hp', if_neg hp']
          exact ih

lemma setKey_setKey {α : Type} (m : List (String × α)) (k : String) (v w : α) :
    setKey (setKey m k v) k w = setKey m k w := by
  induction m with
  | nil => simp [setKey]
  | cons p rest ih =>
      by_cases h : p.1 = k
      · simp [setKey, h]
      · simp [setKey, h, ih]

/-! Helper lemmas about the uniqueness constraint. -/

lemma rowConflict_comm (a b : Row) : rowConflict a b = rowConflict b a := by
  simp only [rowConflict]
  by_cases h1 : a.course_id = b.course_id <;>
    by_cases h2 : a.student_id = b.student_id <;>
      by_cases h3 : a.date = b.date <;>
        simp [h1, h2, h3, eq_comm]

lemma matchTriple_conflict {c s d : String} {a b : Row}
    (ha : matchTriple c s d a = true) (hb : matchTriple c s d b = true) :
    rowConflict a b = true := by
  simp only [matchTriple, Bool.and_eq_true, decide_eq_true_eq] at ha hb
  simp [rowConflict, ha.1.1, ha.1.2, ha.2, hb.1.1, hb.1.2, hb.2]

lemma conflictFree_uniq :
    ∀ (l rem : List Row), conflictFree rem l = true → uniqRemote rem →
      uniqRemote (rem ++ l)
  | [], rem, _, hu => by simpa using hu
  | r :: rest, rem, hcf, hu => by
      simp only [conflictFree, Bool.and_eq_true, Bool.not_eq_true'] at hcf
      obtain ⟨hany, hcf'⟩ := hcf
      have hnoc : ∀ x ∈ rem, rowConflict x r = false := by
        intro x hx
        have := List.any_eq_false.mp hany x hx
        simpa using this
      have hu' : uniqRemote (r :: rem) := by
        refine List.pairwise_cons.mpr ⟨?_, hu⟩
        intro a ha
        rw [rowConflict_comm]
        exact hnoc a ha
      have hrec := conflictFree_uniq rest (r :: rem) hcf' hu'
      have hperm : List.Perm ((r :: rem) ++ rest) (rem ++ r :: rest) := by
        rw [List.cons_append]
        exact List.perm_middle.symm
      exact hrec.perm hperm (fun {a b} h => by rw [rowConflict_comm]; exact h)

lemma uniq_filter_length_le_one {rem : Remote} (hu : uniqRemote rem) (c s d : String) :
    (rem.filter (matchTriple c s d)).length ≤ 1 := by
  induction rem with
  | nil => simp
  | cons r t ih =>
      obtain ⟨hr, ht⟩ := List.pairwise_cons.mp hu
      by_cases hm : matchTriple c s d r = true
      · have hnil : t.filter (matchTriple c s d) = [] := by
          rw [List.filter_eq_nil_iff]
          intro x hx hmx
          have hc := matchTriple_conflict hm (by simpa using hmx)
          have hf := hr x hx
          rw [hf] at hc
          exact Bool.false_ne_true hc
        simp [List.filter_cons, hm, hnil]
      · simp only [List.filter_cons, hm, if_false]
        exact ih ht

lemma uniq_map_preserving {rem : Remote} (f : Row → Row)
    (hc : ∀ r, (f r).course_id = r.course_id) (hs : ∀ r, (f r).student_id = r.student_id)
    (hd : ∀ r, (f r).date = r.date) (hu : uniqRemote rem) :
    uniqRemote (rem.map f) := by
  rw [uniqRemote, List.pairwise_map]
  refine hu.imp ?_
  intro a b h
  simpa [rowConflict, hc, hs, hd] using h

lemma uniq_filter {rem : Remote} (p : Row → Bool) (hu : uniqRemote rem) :
    uniqRemote (rem.filter p) :=
  List.Pairwise.sublist (List.filter_sublist rem) hu

/-! Preservation of the uniqueness invariant by the write operations. -/

lemma upsertOne_uniq (rem : Remote) (nid : Nat) (c s d : String) (st : Status)
    (m now : String) (f : OneFlags) (hu : uniqRemote rem) :
    uniqRemote (upsertOne rem nid c s d st m now f).1 := by
  unfold upsertOne
  by_cases hst : f.selThrow = true
  · simpa [hst] using hu
  · rw [if_neg hst]
    cases hsel : selectSingleId rem c s d with
    | some i =>
        simp only [hsel]
        by_cases hwe : f.writeErr = true
        · simpa [hwe] using hu
        · rw [if_neg hwe]
          refine uniq_map_preserving _ ?_ ?_ ?_ hu <;>
            (intro r; by_cases h : r.id = i <;> simp [h])
    | none =>
        simp only [hsel]
        by_cases hwe : f.writeErr = true
        · simpa [hwe] using hu
        · rw [if_neg hwe]
          simp only [insertBatch]
          by_cases hcf :
              conflictFree rem
                [{ id := nid, course_id := c, student_id := s, date := d, status := st,
                   marked_by := m, created_at := now, updated_at := now }] = true
          · simpa [hcf] using conflictFree_uniq _ _ hcf hu
          · simpa [hcf] using hu

lemma insertBatch_uniq {rem rem' : Remote} {l : List Row}
    (h : insertBatch rem l = some rem') (hu : uniqRemote rem) : uniqRemote rem' := by
  unfold insertBatch at h
  by_cases hcf : conflictFree rem l = true
  · rw [if_pos hcf] at h
    cases h
    exact conflictFree_uniq _ _ hcf hu
  · rw [if_neg hcf] at h
    exact absurd h (by simp)

lemma replaceDay_uniq (rem : Remote) (nid : Nat) (c d : String)
    (data : List (String × Status)) (m now : String) (f : BulkFlags)
    (hu : uniqRemote rem) :
    uniqRemote (replaceDay rem nid c d data m now f).1 := by
  unfold replaceDay
  by_cases hdt : f.delThrow = true
  · simpa [hdt] using hu
  · rw [if_neg hdt]
    have hAfter : uniqRemote (rem.filter (fun r => !(r.course_id = c && r.date = d))) :=
      uniq_filter _ hu
    by_cases hie : f.insErr = true
    · simpa [hie] using hAfter
    · rw [if_neg hie]
      cases hib : insertBatch (rem.filter (fun r => !(r.course_id = c && r.date = d)))
          (buildRows nid c d data m now) with
      | some rem' =>
          simp only [hib]
          exact insertBatch_uniq hib hAfter
      | none =>
          simp only [hib]
          exact hAfter

lemma applyOp_uniq (σ : St) (op : Op) (hu : uniqRemote σ.remote) :
    uniqRemote (applyOp σ op).remote := by
  cases op with
  | one c s d st m now f =>
      simp only [applyOp, markSingleAttendance]
      by_cases hlf : f.localFail = true
      · simpa [hlf] using hu
      · simpa [hlf] using upsertOne_uniq σ.remote σ.nextId c s d st m now f hu
  | bulk c d data m now f =>
      simp only [applyOp, markAttendance]
      by_cases hlf : f.localFail = true
      · simpa [hlf] using hu
      · simpa [hlf] using replaceDay_uniq σ.remote σ.nextId c d data m now f hu

lemma runOps_uniq (ops : List Op) (σ : St) (hu : uniqRemote σ.remote) :
    uniqRemote (runOps ops σ).remote := by
  induction ops generalizing σ with
  | nil => simpa [runOps] using hu
  | cons op rest ih =>
      simp only [runOps, List.foldl_cons] at *
      exact ih _ (applyOp_uniq σ op hu)

/-- C1: after any sequence of `markSingleAttendance` / `markAttendance` calls
starting from the empty store — with arbitrary per-call failure outcomes and
arbitrary payloads, duplicate studentIds in a bulk payload included — the
remote attendance table holds at most one record for every
(courseId, studentId, date) triple. -/
theorem attendance_triple_uniqueness (ops : List Op) (c s d : String) :
    ((runOps ops initSt).remote.filter (matchTriple c s d)).length ≤ 1 :=
  uniq_filter_length_le_one
    (runOps_uniq ops initSt (by simp [initSt, uniqRemote])) c s d

/-! Availability-over-consistency of the write path. -/

lemma markSingle_store_const (σ : St) (c s d : String) (st : Status) (m now : String)
    (f : OneFlags) (hf : f.localFail = false) :
    (markSingleAttendance σ c s d st m now f).2.store =
      localMarkOne σ.store c s d st m now := by
  simp [markSingleAttendance, hf]

lemma markBulk_store_const (σ : St) (c d : String) (data : List (String × Status))
    (m now : String) (f : BulkFlags) (hf : f.localFail = false) :
    (markAttendance σ c d data m now f).2.store = localMarkBulk σ.store c d data m now := by
  simp [markAttendance, hf]

/-- C3: when the first remote call of a mark operation throws (so every remote
call of that operation fails — nothing after the first is reached), both
`markSingleAttendance` and `markAttendance` still return true, leave the
remote table untouched, and the local cache entry for (courseId, date)
carries the marked data; moreover the cache content is the same for every
remote outcome (the cache is written before the remote attempt), for single
and bulk marks alike. -/
theorem write_availability (σ : St) (c s d : String) (st : Status) (m now : String)
    (wErr iErr : Bool) (data : List (String × Status)) :
    (markSingleAttendance σ c s d st m now ⟨false, true, wErr⟩).1 = true ∧
    (markSingleAttendance σ c s d st m now ⟨false, true, wErr⟩).2.remote = σ.remote ∧
    getKey (markSingleAttendance σ c s d st m now ⟨false, true, wErr⟩).2.store
        (storageKey c d) =
      some (setKey ((getKey σ.store (storageKey c d)).getD []) s
        { status := st, markedBy := m, timestamp := now }) ∧
    (∀ f : OneFlags, f.localFail = false →
      (markSingleAttendance σ c s d st m now f).2.store =
        localMarkOne σ.store c s d st m now) ∧
    (markAttendance σ c d data m now ⟨false, true, iErr⟩).1 = true ∧
    (markAttendance σ c d data m now ⟨false, true, iErr⟩).2.remote = σ.remote ∧
    getKey (markAttendance σ c d data m now ⟨false, true, iErr⟩).2.store (storageKey c d) =
      some (data.foldl
        (fun e p => setKey e p.1 { status := p.2, markedBy := m, timestamp := now }) []) ∧
    (∀ f : BulkFlags, f.localFail = false →
      (markAttendance σ c d data m now f).2.store = localMarkBulk σ.store c d data m now) := by
  refine ⟨rfl, rfl, ?_, markSingle_store_const σ c s d st m now, rfl, rfl, ?_,
    markBulk_store_const σ c d data m now⟩
  · have h : (markSingleAttendance σ c s d st m now ⟨false, true, wErr⟩).2.store =
        setKey σ.store (storageKey c d)
          (setKey ((getKey σ.store (storageKey c d)).getD []) s
            { status := st, markedBy := m, timestamp := now }) := rfl
    rw [h]
    exact getKey_setKey_same _ _ _
  · have h : (markAttendance σ c d data m now ⟨false, true, iErr⟩).2.store =
        setKey σ.store (storageKey c d)
          (data.foldl
            (fun e p => setKey e p.1 { status := p.2, markedBy := m, timestamp := now })
            []) := rfl
    rw [h]
    exact getKey_setKey_same _ _ _

/-- Witness for `write_availability` at a concrete input, discharging the
`localFail = false` hypotheses of its two universally quantified conjuncts. -/
theorem write_availability_witness :
    ((⟨false, true, false⟩ : OneFlags).localFail = false ∧
      (markSingleAttendance initSt "C1" "S1" "2024-01-15" Status.present "I1" "t1"
          ⟨false, true, false⟩).2.store =
        localMarkOne initSt.store "C1" "S1" "2024-01-15" Status.present "I1" "t1") ∧
    ((⟨false, true, false⟩ : BulkFlags).localFail = false ∧
      (markAttendance initSt "C1" "2024-01-15" [("S1", Status.present)] "I1" "t1"
          ⟨false, true, false⟩).2.store =
        localMarkBulk initSt.store "C1" "2024-01-15" [("S1", Status.present)] "I1" "t1") :=
  ⟨⟨rfl, (write_availability initSt "C1" "S1" "2024-01-15" Status.present "I1" "t1"
      false false [("S1", Status.present)]).2.2.2.1 ⟨false, true, false⟩ rfl⟩,
    ⟨rfl, (write_availability initSt "C1" "S1" "2024-01-15" Status.present "I1" "t1"
      false false [("S1", Status.present)]).2.2.2.2.2.2.2 ⟨false, true, false⟩ rfl⟩⟩

/-- C4: when the remote read throws, `getAttendanceRecords` for a
(courseId, date) returns exactly the decoded records of the local cache entry
under `attendance_courseId_date` — one record per cached studentId carrying
the cached status and markedBy — and the empty list when no cache entry
exists for that key. -/
theorem read_fallback (σ : St) (c d : String) :
    getAttendanceRecords σ c (some d) true =
      ((getKey σ.store (storageKey c d)).getD []).map (decodeCached c d) ∧
    (getKey σ.store (storageKey c d) = none →
      getAttendanceRecords σ c (some d) true = []) := by
  constructor
  · rfl
  · intro h
    simp [getAttendanceRecords, h]

/-- Witness for `read_fallback`: on the empty store the cache has no entry
for the key and the fallback read returns the empty list. -/
theorem read_fallback_witness :
    getKey initSt.store (storageKey "C1" "2024-01-15") = none ∧
    getAttendanceRecords initSt "C1" (some "2024-01-15") true = [] :=
  ⟨rfl, (read_fallback initSt "C1" "2024-01-15").2 rfl⟩

/-- C5: `getCourseStudents` returns the fixed five-entry fallback roster both
when the enrollment join fails and when it yields an empty student list; the
fallback's institution identifiers are the deterministic STU001..STU005 (and
the function is total — no error escapes it). -/
theorem roster_failsoft (enrollments : List (String × Student)) (c : String) :
    getCourseStudents enrollments c true = mockStudents ∧
    ((enrollments.filter (fun p => p.1 = c)).map (fun p => p.2) = [] →
      getCourseStudents enrollments c false = mockStudents) ∧
    mockStudents.length = 5 ∧
    mockStudents.map Student.student_id = ["STU001", "STU002", "STU003", "STU004", "STU005"] := by
  refine ⟨rfl, ?_, rfl, rfl⟩
  intro h
  simp [getCourseStudents, h]

/-- Witness for `roster_failsoft`: a course with no enrollment rows gets the
mock roster. -/
theorem roster_failsoft_witness :
    (([] : List (String × Student)).filter (fun p => p.1 = "CSE101")).map
        (fun p => p.2) = [] ∧
    getCourseStudents [] "CSE101" false = mockStudents :=
  ⟨rfl, (roster_failsoft [] "CSE101").2.1 rfl⟩

/-! Bulk import counts every entry as a success. -/

lemma bulkImport_foldl (c m now : String) :
    ∀ (entries : List (ImportEntry × OneFlags)) (res : ImportResults) (σ : St),
      (entries.foldl
        (fun acc e =>
          let r := markSingleAttendance acc.2 c e.1.studentId e.1.date e.1.status m now e.2
          ({ acc.1 with success := acc.1.success + 1 }, r.2)) (res, σ)).1 =
        { success := res.success + entries.length, failed := res.failed,
          errors := res.errors }
  | [], res, σ => by simp
  | e :: rest, res, σ => by
      simp only [List.foldl_cons]
      rw [bulkImport_foldl c m now rest _ _]
      simp only [List.length_cons]
      congr 1
      omega

/-- C9: `bulkImportAttendance` reports success = n, failed = 0 and no error
messages for every list of n entries and every combination of per-entry
failure outcomes — its catch branch is dead because `markSingleAttendance`
traps every error internally, so even entries whose remote and local writes
fail are counted as successes. -/
theorem bulk_import_never_fails (σ : St) (c : String)
    (entries : List (ImportEntry × OneFlags)) (m now : String) :
    (bulkImportAttendance σ c entries m now).1 =
      { success := entries.length, failed := 0, errors := [] } := by
  unfold bulkImportAttendance
  rw [bulkImport_foldl c m now entries _ σ]
  simp

/-! Bulk overwrite of a (course, date) partition. -/

lemma conflict_false_of_ne_student {r1 r2 : Row} (h : r1.student_id ≠ r2.student_id) :
    rowConflict r1 r2 = false := by
  simp [rowConflict, h]

lemma afterDel_any_false (rem : Remote) (c d : String) (r : Row)
    (hc : r.course_id = c) (hd : r.date = d) :
    ((rem.filter (fun x => !(x.course_id = c && x.date = d))).any
      (fun x => rowConflict x r)) = false := by
  rw [List.any_eq_false]
  intro x hx
  rw [List.mem_filter] at hx
  obtain ⟨-, hpred⟩ := hx
  by_cases hxc : x.course_id = c
  · by_cases hxd : x.date = d
    · simp [hxc, hxd] at hpred
    · simp [rowConflict, hc, hd, hxd]
  · simp [rowConflict, hc, hxc]

lemma filter_not_pred {α : Type} (l : List α) (p : α → Bool) :
    (l.filter (fun x => !(p x))).filter p = [] := by
  rw [List.filter_filter]
  simp

lemma replaceDay_ok (rem : Remote) (nid : Nat) (c d : String)
    (data : List (String × Status)) (m now : String)
    (hcf : conflictFree (rem.filter (fun x => !(x.course_id = c && x.date = d)))
      (buildRows nid c d data m now) = true) :
    replaceDay rem nid c d data m now ⟨false, false, false⟩ =
      (rem.filter (fun x => !(x.course_id = c && x.date = d)) ++
        buildRows nid c d data m now, nid + data.length) := by
  have hcf' := hcf
  simp only [Bool.not_and] at hcf'
  simp [replaceDay, insertBatch, hcf, hcf']

/-- C2: a bulk `markAttendance` for (courseId, date) with payload students a
and b (a different from b), with the remote calls succeeding, leaves exactly
the two payload rows as the remote records with that course and date — any
prior record for the date whose student is not in the payload is gone — and
replaces the local cache entry for that key with exactly the two payload
entries. -/
theorem bulk_overwrite (σ : St) (c d a b : String) (sa sb : Status) (m now : String)
    (hab : a ≠ b) :
    (markAttendance σ c d [(a, sa), (b, sb)] m now ⟨false, false, false⟩).1 = true ∧
    (markAttendance σ c d [(a, sa), (b, sb)] m now ⟨false, false, false⟩).2.remote.filter
        (fun r => r.course_id = c && r.date = d) =
      [{ id := σ.nextId, course_id := c, student_id := a, date := d, status := sa,
         marked_by := m, created_at := now, updated_at := now },
       { id := σ.nextId + 1, course_id := c, student_id := b, date := d, status := sb,
         marked_by := m, created_at := now, updated_at := now }] ∧
    getKey (markAttendance σ c d [(a, sa), (b, sb)] m now ⟨false, false, false⟩).2.store
        (storageKey c d) =
      some [(a, { status := sa, markedBy := m, timestamp := now }),
            (b, { status := sb, markedBy := m, timestamp := now })] := by
  have hrows : buildRows σ.nextId c d [(a, sa), (b, sb)] m now =
      [{ id := σ.nextId, course_id := c, student_id := a, date := d, status := sa,
         marked_by := m, created_at := now, updated_at := now },
       { id := σ.nextId + 1, course_id := c, student_id := b, date := d, status := sb,
         marked_by := m, created_at := now, updated_at := now }] := rfl
  have hcf : conflictFree (σ.remote.filter (fun x => !(x.course_id = c && x.date = d)))
      (buildRows σ.nextId c d [(a, sa), (b, sb)] m now) = true := by
    rw [hrows]
    simp only [conflictFree, Bool.and_eq_true, Bool.not_eq_true']
    refine ⟨afterDel_any_false σ.remote c d _ rfl rfl, ?_, trivial⟩
    rw [List.any_cons]
    rw [conflict_false_of_ne_student hab]
    simp only [Bool.false_or]
    exact afterDel_any_false σ.remote c d _ rfl rfl
  have hrem : (markAttendance σ c d [(a, sa), (b, sb)] m now ⟨false, false, false⟩).2.remote =
      σ.remote.filter (fun x => !(x.course_id = c && x.date = d)) ++
        buildRows σ.nextId c d [(a, sa), (b, sb)] m now := by
    show (replaceDay σ.remote σ.nextId c d [(a, sa), (b, sb)] m now ⟨false, false, false⟩).1 = _
    rw [replaceDay_ok σ.remote σ.nextId c d [(a, sa), (b, sb)] m now hcf]
  refine ⟨rfl, ?_, ?_⟩
  · rw [hrem, hrows, List.filter_append, filter_not_pred]
    simp
  · have hst : (markAttendance σ c d [(a, sa), (b, sb)] m now ⟨false, false, false⟩).2.store =
        setKey σ.store (storageKey c d)
          ([(a, sa), (b, sb)].foldl
            (fun e p => setKey e p.1 { status := p.2, markedBy := m, timestamp := now })
            []) := rfl
    rw [hst, getKey_setKey_same]
    simp [setKey, hab]

/-- Witness for `bulk_overwrite`: from a day covering students A, B and C,
bulk-marking only A and B leaves exactly A's and B's rows for that day. -/
theorem bulk_overwrite_witness :
    ("A" : String) ≠ "B" ∧
    (markAttendance
        { remote :=
            [{ id := 0, course_id := "C1", student_id := "A", date := "2024-01-16",
               status := Status.absent, marked_by := "I1", created_at := "t1",
               updated_at := "t1" },
             { id := 1, course_id := "C1", student_id := "B", date := "2024-01-16",
               status := Status.absent, marked_by := "I1", created_at := "t1",
               updated_at := "t1" },
             { id := 2, course_id := "C1", student_id := "C", date := "2024-01-16",
               status := Status.absent, marked_by := "I1", created_at := "t1",
               updated_at := "t1" }],
          store := [], nextId := 3 }
        "C1" "2024-01-16" [("A", Status.present), ("B", Status.present)] "I1" "t2"
        ⟨false, false, false⟩).2.remote.filter
        (fun r => r.course_id = "C1" && r.date = "2024-01-16") =
      [{ id := 3, course_id := "C1", student_id := "A", date := "2024-01-16",
         status := Status.present, marked_by := "I1", created_at := "t2",
         updated_at := "t2" },
       { id := 4, course_id := "C1", student_id := "B", date := "2024-01-16",
         status := Status.present, marked_by := "I1", created_at := "t2",
         updated_at := "t2" }] :=
  ⟨by decide,
    (bulk_overwrite
      { remote :=
          [{ id := 0, course_id := "C1", student_id := "A", date := "2024-01-16",
             status := Status.absent, marked_by := "I1", created_at := "t1",
             updated_at := "t1" },
           { id := 1, course_id := "C1", student_id := "B", date := "2024-01-16",
             status := Status.absent, marked_by := "I1", created_at := "t1",
             updated_at := "t1" },
           { id := 2, course_id := "C1", student_id := "C", date := "2024-01-16",
             status := Status.absent, marked_by := "I1", created_at := "t1",
             updated_at := "t1" }],
        store := [], nextId := 3 }
      "C1" "2024-01-16" "A" "B" Status.present Status.present "I1" "t2" (by decide)).2.1⟩

/-- C10: after `markSingleAttendance` (with the local write succeeding and any
remote outcome), the cache entry for (courseId, date) maps the marked student
to the new record while every other student key of that entry and every other
cache key are unchanged; `markAttendance` by contrast replaces the whole
entry for the key with one built from its payload alone. -/
theorem single_mark_cache_frame (σ : St) (c s d : String) (st : Status) (m now : String)
    (sel wErr : Bool) :
    getKey (markSingleAttendance σ c s d st m now ⟨false, sel, wErr⟩).2.store
        (storageKey c d) =
      some (setKey ((getKey σ.store (storageKey c d)).getD []) s
        { status := st, markedBy := m, timestamp := now }) ∧
    (∀ k : String, k ≠ storageKey c d →
      getKey (markSingleAttendance σ c s d st m now ⟨false, sel, wErr⟩).2.store k =
        getKey σ.store k) ∧
    getKey (setKey ((getKey σ.store (storageKey c d)).getD []) s
        { status := st, markedBy := m, timestamp := now }) s =
      some { status := st, markedBy := m, timestamp := now } ∧
    (∀ s' : String, s' ≠ s →
      getKey (setKey ((getKey σ.store (storageKey c d)).getD []) s
          { status := st, markedBy := m, timestamp := now }) s' =
        getKey ((getKey σ.store (storageKey c d)).getD []) s') ∧
    (∀ (data : List (String × Status)) (df ie : Bool),
      getKey (markAttendance σ c d data m now ⟨false, df, ie⟩).2.store (storageKey c d) =
        some (data.foldl
          (fun e p => setKey e p.1 { status := p.2, markedBy := m, timestamp := now }) [])) := by
  have hst : (markSingleAttendance σ c s d st m now ⟨false, sel, wErr⟩).2.store =
      setKey σ.store (storageKey c d)
        (setKey ((getKey σ.store (storageKey c d)).getD []) s
          { status := st, markedBy := m, timestamp := now }) := rfl
  refine ⟨?_, ?_, getKey_setKey_same _ _ _, ?_, ?_⟩
  · rw [hst]
    exact getKey_setKey_same _ _ _
  · intro k hk
    rw [hst]
    exact getKey_setKey_ne _ _ _ _ hk
  · intro s' hs'
    exact getKey_setKey_ne _ _ _ _ hs'
  · intro data df ie
    have hbst : (markAttendance σ c d data m now ⟨false, df, ie⟩).2.store =
        setKey σ.store (storageKey c d)
          (data.foldl
            (fun e p => setKey e p.1 { status := p.2, markedBy := m, timestamp := now })
            []) := rfl
    rw [hbst]
    exact getKey_setKey_same _ _ _

/-- Witness for `single_mark_cache_frame`: marking S1 on a cache that already
holds S2 under the same key and an unrelated key leaves S2's record and the
unrelated key untouched. -/
theorem single_mark_cache_frame_witness :
    (("other_key" : String) ≠ storageKey "C1" "2024-01-15" ∧
      getKey (markSingleAttendance
          { remote := [], nextId := 0,
            store := [(storageKey "C1" "2024-01-15",
                        [("S2", { status := Status.late, markedBy := "I1",
                                  timestamp := "t0" })]),
                      ("other_key", [])] }
          "C1" "S1" "2024-01-15" Status.present "I1" "t1"
          ⟨false, false, false⟩).2.store "other_key" =
        getKey [(storageKey "C1" "2024-01-15",
                  [("S2", { status := Status.late, markedBy := "I1",
                            timestamp := "t0" })]),
                ("other_key", ([] : CacheEntry))] "other_key") ∧
    (("S2" : String) ≠ "S1" ∧
      getKey (setKey ((getKey
            [(storageKey "C1" "2024-01-15",
               [("S2", { status := Status.late, markedBy := "I1", timestamp := "t0" })]),
             ("other_key", ([] : CacheEntry))] (storageKey "C1" "2024-01-15")).getD [])
          "S1" { status := Status.present, markedBy := "I1", timestamp := "t1" }) "S2" =
        getKey ((getKey
            [(storageKey "C1" "2024-01-15",
               [("S2", { status := Status.late, markedBy := "I1", timestamp := "t0" })]),
             ("other_key", ([] : CacheEntry))] (storageKey "C1" "2024-01-15")).getD [])
          "S2") := by
  constructor
  · constructor
    · decide
    · exact (single_mark_cache_frame
        { remote := [], nextId := 0,
          store := [(storageKey "C1" "2024-01-15",
                      [("S2", { status := Status.late, markedBy := "I1",
                                timestamp := "t0" })]),
                    ("other_key", [])] }
        "C1" "S1" "2024-01-15" Status.present "I1" "t1" false false).2.1
        "other_key" (by decide)
  · constructor
    · decide
    · exact (single_mark_cache_frame
        { remote := [], nextId := 0,
          store := [(storageKey "C1" "2024-01-15",
                      [("S2", { status := Status.late, markedBy := "I1",
                                timestamp := "t0" })]),
                    ("other_key", [])] }
        "C1" "S1" "2024-01-15" Status.present "I1" "t1" false false).2.2.2.1
        "S2" (by decide)

/-! The attendance-rate and unmarked-count formulas. -/

/-- C7 counterexample: with one present and two absent records for a course,
`getAttendanceStats` returns attendanceRate = 100/3 — the service applies no
rounding. A percentage with one decimal of precision is some k/10 with k an
integer, so ten times it is an integer; here ten times the rate lies strictly
between 333 and 334, so the returned rate carries no one-decimal
representation. -/
theorem stats_one_decimal_cex :
    (getAttendanceStats
        { remote :=
            [{ id := 0, course_id := "C1", student_id := "S1", date := "2024-01-15",
               status := Status.present, marked_by := "I1", created_at := "t",
               updated_at := "t" },
             { id := 1, course_id := "C1", student_id := "S2", date := "2024-01-15",
               status := Status.absent, marked_by := "I1", created_at := "t",
               updated_at := "t" },
             { id := 2, course_id := "C1", student_id := "S3", date := "2024-01-15",
               status := Status.absent, marked_by := "I1", created_at := "t",
               updated_at := "t" }],
          store := [], nextId := 3 }
        "C1" none none [] false StatsRemote.ok).attendanceRate = 100 / 3 ∧
    (333 : ℚ) <
      (getAttendanceStats
        { remote :=
            [{ id := 0, course_id := "C1", student_id := "S1", date := "2024-01-15",
               status := Status.present, marked_by := "I1", created_at := "t",
               updated_at := "t" },
             { id := 1, course_id := "C1", student_id := "S2", date := "2024-01-15",
               status := Status.absent, marked_by := "I1", created_at := "t",
               updated_at := "t" },
             { id := 2, course_id := "C1", student_id := "S3", date := "2024-01-15",
               status := Status.absent, marked_by := "I1", created_at := "t",
               updated_at := "t" }],
          store := [], nextId := 3 }
        "C1" none none [] false StatsRemote.ok).attendanceRate * 10 ∧
    (getAttendanceStats
        { remote :=
            [{ id := 0, course_id := "C1", student_id := "S1", date := "2024-01-15",
               status := Status.present, marked_by := "I1", created_at := "t",
               updated_at := "t" },
             { id := 1, course_id := "C1", student_id := "S2", date := "2024-01-15",
               status := Status.absent, marked_by := "I1", created_at := "t",
               updated_at := "t" },
             { id := 2, course_id := "C1", student_id := "S3", date := "2024-01-15",
               status := Status.absent, marked_by := "I1", created_at := "t",
               updated_at := "t" }],
          store := [], nextId := 3 }
        "C1" none none [] false StatsRemote.ok).attendanceRate * 10 < 334 := by
  have h1 : (getAttendanceStats
      { remote :=
          [{ id := 0, course_id := "C1", student_id := "S1", date := "2024-01-15",
             status := Status.present, marked_by := "I1", created_at := "t",
             updated_at := "t" },
           { id := 1, course_id := "C1", student_id := "S2", date := "2024-01-15",
             status := Status.absent, marked_by := "I1", created_at := "t",
             updated_at := "t" },
           { id := 2, course_id := "C1", student_id := "S3", date := "2024-01-15",
             status := Status.absent, marked_by := "I1", created_at := "t",
             updated_at := "t" }],
        store := [], nextId := 3 }
      "C1" none none [] false StatsRemote.ok).attendanceRate = 100 / 3 := by
    simp [getAttendanceStats, getCourseStudents, mockStudents, statsCore, dateInRange,
      localScanStatuses]
    norm_num
  refine ⟨h1, ?_, ?_⟩ <;> rw [h1] <;> norm_num

/-- C7 amended: the attendanceRate computed by the stats aggregation is 0
when there are no records and the exact full-precision percentage
(present + late) / markedCount · 100 otherwise (no rounding to one decimal is
applied by the service); with zero enrolled students and zero records every
field is zero and no division error occurs. -/
theorem stats_rate_formula (t : Nat) (records : List Status) :
    (statsCore t records).attendanceRate =
      (if records.length = 0 then 0 else
        ((((records.filter (fun r => r = Status.present)).length +
            (records.filter (fun r => r = Status.late)).length : Nat) : ℚ) /
          (records.length : ℚ)) * 100) ∧
    statsCore 0 [] =
      { totalStudents := 0, totalRecords := 0, present := 0, absent := 0, late := 0,
        presentPercentage := 0, attendanceRate := 0 } := by
  constructor
  · by_cases h : records.length = 0
    · simp [statsCore, h]
    · have hpos : 0 < records.length := Nat.pos_of_ne_zero h
      simp [statsCore, h, hpos]
  · rfl

/-- C8 counterexample: the only stats object with an unmarked-count field is
the one computed in `CourseCard.tsx`, and there the field is the unclamped
subtraction: with zero roster students and one fetched record the field is
-1, not max(0, 0 - 1) = 0. -/
theorem unmarked_count_cex :
    (cardAttendanceStats []
        [{ id := "0", courseId := "C1", studentId := "S1", date := "2024-01-15",
           status := Status.present, markedBy := "I1" }]).unmarked = -1 ∧
    (cardAttendanceStats []
        [{ id := "0", courseId := "C1", studentId := "S1", date := "2024-01-15",
           status := Status.present, markedBy := "I1" }]).unmarked ≠
      max 0
        (((cardAttendanceStats []
            [{ id := "0", courseId := "C1", studentId := "S1", date := "2024-01-15",
               status := Status.present, markedBy := "I1" }]).totalStudents : Int) -
          ((cardAttendanceStats []
            [{ id := "0", courseId := "C1", studentId := "S1", date := "2024-01-15",
               status := Status.present, markedBy := "I1" }]).markedStudents : Int)) := by
  constructor
  · rfl
  · intro h
    simp [cardAttendanceStats] at h

/-- C8 amended: the UI-level stats of `CourseCard.tsx` carry
unmarked = totalStudents - markedCount as a plain (possibly negative)
subtraction; it equals max(0, totalStudents - markedCount) exactly when
markedCount does not exceed the roster size. The service-level
`getAttendanceStats` returns no unmarked-count field at all. -/
theorem unmarked_count_formula (students : List Student) (records : List ARecord) :
    (cardAttendanceStats students records).unmarked =
      (students.length : Int) - (records.length : Int) ∧
    (records.length ≤ students.length →
      (cardAttendanceStats students records).unmarked =
        max 0 ((students.length : Int) - (records.length : Int))) := by
  refine ⟨rfl, fun h => ?_⟩
  have h0 : (0 : Int) ≤ (students.length : Int) - (records.length : Int) := by omega
  rw [max_eq_right h0]
  rfl

/-- Witness for `unmarked_count_formula`: five roster students, one marked
record, unmarked = max(0, 5 - 1) = 4. -/
theorem unmarked_count_formula_witness :
    ([{ id := "0", courseId := "C1", studentId := "S1", date := "2024-01-15",
        status := Status.present, markedBy := "I1" }] : List ARecord).length ≤
      mockStudents.length ∧
    (cardAttendanceStats mockStudents
        [{ id := "0", courseId := "C1", studentId := "S1", date := "2024-01-15",
           status := Status.present, markedBy := "I1" }]).unmarked =
      max 0 ((mockStudents.length : Int) -
        (([{ id := "0", courseId := "C1", studentId := "S1", date := "2024-01-15",
             status := Status.present, markedBy := "I1" }] : List ARecord).length : Int)) :=
  ⟨by decide,
    (unmarked_count_formula mockStudents
      [{ id := "0", courseId := "C1", studentId := "S1", date := "2024-01-15",
         status := Status.present, markedBy := "I1" }]).2 (by decide)⟩

/-! Idempotence of the single-student mark. -/

lemma localMarkOne_idem (store : LocalStore) (c s d : String) (st : Status)
    (m now : String) :
    localMarkOne (localMarkOne store c s d st m now) c s d st m now =
      localMarkOne store c s d st m now := by
  simp only [localMarkOne, getKey_setKey_same, Option.getD_some, setKey_setKey]

lemma upsertOne_idem (rem : Remote) (nid : Nat) (c s d : String) (st : Status)
    (m now : String) (hfresh : idsFresh rem nid) :
    upsertOne (upsertOne rem nid c s d st m now ⟨false, false, false⟩).1
        (upsertOne rem nid c s d st m now ⟨false, false, false⟩).2 c s d st m now
        ⟨false, false, false⟩ =
      upsertOne rem nid c s d st m now ⟨false, false, false⟩ := by
  cases hfil : rem.filter (matchTriple c s d) with
  | nil =>
      -- no matching row: the first call inserts, the second updates the row in place
      have hsel1 : selectSingleId rem c s d = none := by
        simp [selectSingleId, hfil]
      have hnoc : rem.any (fun x => rowConflict x
          { id := nid, course_id := c, student_id := s, date := d, status := st,
            marked_by := m, created_at := now, updated_at := now }) = false := by
        rw [List.any_eq_false]
        intro x hx hcon
        have hm : matchTriple c s d x = true := by
          simp only [rowConflict] at hcon
          simp only [matchTriple]
          simpa using hcon
        have hmem : x ∈ rem.filter (matchTriple c s d) := List.mem_filter.mpr ⟨hx, hm⟩
        rw [hfil] at hmem
        exact absurd hmem (List.not_mem_nil x)
      have hup1 : upsertOne rem nid c s d st m now ⟨false, false, false⟩ =
          (rem ++ [{ id := nid, course_id := c, student_id := s, date := d, status := st,
                     marked_by := m, created_at := now, updated_at := now }], nid + 1) := by
        simp [upsertOne, hsel1, insertBatch, conflictFree, hnoc]
      have hfil2 : (rem ++ ([{ id := nid, course_id := c, student_id := s, date := d,
                               status := st, marked_by := m, created_at := now,
                               updated_at := now }] : List Row)).filter (matchTriple c s d) =
          [{ id := nid, course_id := c, student_id := s, date := d, status := st,
             marked_by := m, created_at := now, updated_at := now }] := by
        rw [List.filter_append, hfil]
        simp [matchTriple]
      have hsel2 : selectSingleId (rem ++ ([{ id := nid, course_id := c, student_id := s,
                                               date := d, status := st, marked_by := m,
                                               created_at := now, updated_at := now }] :
                                              List Row))
          c s d = some nid := by
        simp [selectSingleId, hfil2]
      rw [hup1]
      simp only [upsertOne, hsel2]
      have hmap : (rem ++ ([{ id := nid, course_id := c, student_id := s, date := d,
                              status := st, marked_by := m, created_at := now,
                              updated_at := now }] : List Row)).map
          (fun r => if r.id = nid then
            { r with status := st, marked_by := m, updated_at := now } else r) =
          rem ++ [{ id := nid, course_id := c, student_id := s, date := d, status := st,
                    marked_by := m, created_at := now, updated_at := now }] := by
        rw [List.map_append]
        have h1 : rem.map (fun r => if r.id = nid then
            { r with status := st, marked_by := m, updated_at := now } else r) = rem := by
          conv_rhs => rw [← List.map_id rem]
          apply List.map_congr_left
          intro x hx
          have hne : x.id ≠ nid := Nat.ne_of_lt (hfresh x hx)
          simp [hne]
        rw [h1]
        simp
      simp [hmap]
  | cons r0 tl =>
      cases tl with
      | nil =>
          -- exactly one matching row: both calls update it in place, same values
          have hsel1 : selectSingleId rem c s d = some r0.id := by
            simp [selectSingleId, hfil]
          have hup1 : upsertOne rem nid c s d st m now ⟨false, false, false⟩ =
              (rem.map (fun r => if r.id = r0.id then
                { r with status := st, marked_by := m, updated_at := now } else r),
               nid) := by
            simp [upsertOne, hsel1]
          have hPu : ∀ r : Row, matchTriple c s d
              (if r.id = r0.id then
                { r with status := st, marked_by := m, updated_at := now } else r) =
              matchTriple c s d r := by
            intro r
            by_cases h : r.id = r0.id <;> simp [matchTriple, h]
          have hfil2 : (rem.map (fun r => if r.id = r0.id then
              { r with status := st, marked_by := m, updated_at := now } else r)).filter
              (matchTriple c s d) =
              [if r0.id = r0.id then
                { r0 with status := st, marked_by := m, updated_at := now } else r0] := by
            rw [List.filter_map]
            have hcong : rem.filter (matchTriple c s d ∘ (fun r => if r.id = r0.id then
                { r with status := st, marked_by := m, updated_at := now } else r)) =
                rem.filter (matchTriple c s d) := by
              apply List.filter_congr
              intro a _
              exact hPu a
            rw [hcong, hfil]
            rfl
          have hsel2 : selectSingleId (rem.map (fun r => if r.id = r0.id then
              { r with status := st, marked_by := m, updated_at := now } else r)) c s d =
              some r0.id := by
            simp [selectSingleId, hfil2]
          rw [hup1]
          simp only [upsertOne, hsel2]
          have hmap : (rem.map (fun r => if r.id = r0.id then
              { r with status := st, marked_by := m, updated_at := now } else r)).map
              (fun r => if r.id = r0.id then
                { r with status := st, marked_by := m, updated_at := now } else r) =
              rem.map (fun r => if r.id = r0.id then
                { r with status := st, marked_by := m, updated_at := now } else r) := by
            rw [List.map_map]
            apply List.map_congr_left
            intro x _
            by_cases h : x.id = r0.id <;> simp [Function.comp, h]
          simp [hmap]
      | cons r1 rest =>
          -- several matching rows: the lookup errors and the insert conflicts;
          -- both calls leave the table unchanged
          have hsel1 : selectSingleId rem c s d = none := by
            simp [selectSingleId, hfil]
          have hr0mem : r0 ∈ rem.filter (matchTriple c s d) := by
            rw [hfil]
            exact List.mem_cons_self r0 (r1 :: rest)
          have hconf : rem.any (fun x => rowConflict x
              { id := nid, course_id := c, student_id := s, date := d, status := st,
                marked_by := m, created_at := now, updated_at := now }) = true := by
            rw [List.any_eq_true]
            refine ⟨r0, List.mem_of_mem_filter hr0mem, ?_⟩
            exact matchTriple_conflict (List.of_mem_filter hr0mem) (by simp [matchTriple])
          have hup1 : upsertOne rem nid c s d st m now ⟨false, false, false⟩ =
              (rem, nid) := by
            simp [upsertOne, hsel1, insertBatch, conflictFree, hconf]
          rw [hup1]
          exact hup1

/-- C6: with the remote calls succeeding and fresh ids, marking the same
(courseId, studentId, date, status, markedBy) twice in a row — with the same
write timestamp — produces exactly the state of marking it once: one remote
record for the triple and one cache entry record for the student. -/
theorem markOne_idempotent (σ : St) (c s d : String) (st : Status) (m now : String)
    (hfresh : idsFresh σ.remote σ.nextId) :
    markSingleAttendance (markSingleAttendance σ c s d st m now ⟨false, false, false⟩).2
        c s d st m now ⟨false, false, false⟩ =
      markSingleAttendance σ c s d st m now ⟨false, false, false⟩ := by
  have hre := upsertOne_idem σ.remote σ.nextId c s d st m now hfresh
  have hlo := localMarkOne_idem σ.store c s d st m now
  simp only [markSingleAttendance]
  simp only [show (⟨false, false, false⟩ : OneFlags).localFail = false from rfl,
    Bool.false_eq_true, if_false]
  rw [hre, hlo]

/-- Witness for `markOne_idempotent` at the empty initial state. -/
theorem markOne_idempotent_witness :
    idsFresh initSt.remote initSt.nextId ∧
    markSingleAttendance (markSingleAttendance initSt "C1" "S1" "2024-01-15"
        Status.present "I1" "t1" ⟨false, false, false⟩).2 "C1" "S1" "2024-01-15"
        Status.present "I1" "t1" ⟨false, false, false⟩ =
      markSingleAttendance initSt "C1" "S1" "2024-01-15" Status.present "I1" "t1"
        ⟨false, false, false⟩ :=
  ⟨by simp [idsFresh, initSt],
    markOne_idempotent initSt "C1" "S1" "2024-01-15" Status.present "I1" "t1"
      (by simp [idsFresh, initSt])⟩
